import Mathlib

/-!
# Verification of the calorie-tracker daily-ledger core

A shallow embedding, in Lean 4, of the core logic of
`src/calorie_tracker.py` (class `CalorieTracker`):

* the numeric extraction `re.findall(r'\d+\.?\d*', llm_response)` and the
  parser `parse_nutritional_data` (lines 135-158);
* the JSON daily-ledger store: `load_daily_data` (lines 61-79) and
  `save_to_file` (lines 160-204), modelled over an explicit JSON value
  type and an explicit map from date strings to file contents;
* the summary calculator `calculate_remaining_calories` (lines 206-222)
  and the presentation tiers of `display_daily_summary` (lines 244-263);
* the per-item processing loop of `run` (lines 293-339), with the LLM and
  the network modelled as an oracle giving each item's reply (or failure).

Numbers are modelled as `ℚ` (the Python code uses floats; all claims under
study are about structure and exact sums, not rounding).  Digits are
modelled as ASCII `0`-`9` (`Char.isDigit`), matching the replies the
program is designed to receive.  Dates and timestamps, produced in the
source by `datetime.now()`, are passed in explicitly as strings.
-/

namespace CalorieTracker

/-! ## Python exception model

The distinct exceptions the modelled code can raise, by source site:
`ValueError` with the "Expected 4 numbers" message (line 148), `ValueError`
with the "Failed to parse nutritional data" message (line 158), the
`Exception("Failed to query LLM")` wrapper (line 133), and `AttributeError`
/ `TypeError` / `KeyError` arising from operating on JSON values of an
unexpected shape. -/
inductive Err where
  | tooFewNumbers (got : Nat)
  | floatConvFailed
  | requestFailed
  | attrError
  | typeError
  | keyError
deriving DecidableEq, Repr

/-! ## Numeric extraction: `re.findall` with pattern `\d+\.?\d*` -/

/-- The single match of `\d+\.?\d*` starting at the head of `cs` (the head
is assumed to be a digit): a maximal run of digits, then — if the next
character is a dot — the dot and a further maximal run of digits.  This is
the greedy semantics of the pattern; no backtracking occurs because the
tail of the pattern matches the empty string. -/
def numToken (cs : List Char) : List Char :=
  let ip := cs.takeWhile Char.isDigit
  match cs.dropWhile Char.isDigit with
  | '.' :: r2 => ip ++ '.' :: r2.takeWhile Char.isDigit
  | _ => ip

/-- The rest of the input after the match described by `numToken`. -/
def numRest (cs : List Char) : List Char :=
  match cs.dropWhile Char.isDigit with
  | '.' :: r2 => r2.dropWhile Char.isDigit
  | r1 => r1

/-- Worker for `findNumbers`, structurally recursive on a fuel argument so
that the definition is kernel-computable.  `fuel ≥ cs.length` always
suffices, because each match consumes at least one character. -/
def findNumbersAux : Nat → List Char → List (List Char)
  | 0, _ => []
  | _, [] => []
  | fuel + 1, c :: cs =>
    if c.isDigit then
      numToken (c :: cs) :: findNumbersAux fuel (numRest (c :: cs))
    else
      findNumbersAux fuel cs

/-- The extraction `re.findall` with pattern `\d+\.?\d*` (source line
145): scan left to right,
collecting every non-overlapping match of the pattern, resuming the scan
at the end of each match. -/
def findNumbers (cs : List Char) : List (List Char) :=
  findNumbersAux cs.length cs

lemma length_dropWhile_le (p : Char → Bool) :
    ∀ l : List Char, (l.dropWhile p).length ≤ l.length := by
  intro l
  induction l with
  | nil => simp
  | cons c cs ih =>
    rw [List.dropWhile_cons]
    split
    · exact Nat.le_succ_of_le ih
    · exact Nat.le_refl _

lemma numRest_length_le (c : Char) (cs : List Char) (h : c.isDigit = true) :
    (numRest (c :: cs)).length ≤ cs.length := by
  unfold numRest
  rw [List.dropWhile_cons, if_pos h]
  split
  · rename_i r2 heq
    have h2 : r2.length < (cs.dropWhile Char.isDigit).length := by
      rw [heq]; simp
    have h3 := length_dropWhile_le Char.isDigit r2
    have h4 := length_dropWhile_le Char.isDigit cs
    omega
  · exact length_dropWhile_le Char.isDigit cs

lemma findNumbersAux_irrel :
    ∀ (f1 : Nat) (l : List Char) (f2 : Nat), l.length ≤ f1 → l.length ≤ f2 →
      findNumbersAux f1 l = findNumbersAux f2 l := by
  intro f1
  induction f1 with
  | zero =>
    intro l f2 h1 _
    have : l = [] := List.length_eq_zero.mp (Nat.le_zero.mp h1)
    subst this
    cases f2 <;> rfl
  | succ f ih =>
    intro l f2 h1 h2
    cases l with
    | nil => cases f2 <;> rfl
    | cons c cs =>
      simp only [List.length_cons] at h1 h2
      cases f2 with
      | zero => omega
      | succ g =>
        show (if c.isDigit then _ else _) = (if c.isDigit then _ else _)
        by_cases hd : c.isDigit = true
        · rw [if_pos hd, if_pos hd]
          have hr := numRest_length_le c cs hd
          rw [ih (numRest (c :: cs)) g (by omega) (by omega)]
        · rw [if_neg hd, if_neg hd]
          exact ih cs g (by omega) (by omega)

/-- One-step unfolding of `findNumbers`, independent of the fuel device. -/
lemma findNumbers_cons (c : Char) (cs : List Char) :
    findNumbers (c :: cs) =
      if c.isDigit then numToken (c :: cs) :: findNumbers (numRest (c :: cs))
      else findNumbers cs := by
  show findNumbersAux (cs.length + 1) (c :: cs) = _
  show (if c.isDigit then _ else _) = _
  by_cases hd : c.isDigit = true
  · rw [if_pos hd, if_pos hd]
    rw [findNumbersAux_irrel cs.length (numRest (c :: cs)) (numRest (c :: cs)).length
      (numRest_length_le c cs hd) (Nat.le_refl _)]
    rfl
  · rw [if_neg hd, if_neg hd]
    rfl

/-! ## Token values: the Python `float` built-in on extracted tokens -/

/-- Decimal value of a digit string, most significant digit first. -/
def digitsToNat (ds : List Char) : Nat :=
  ds.foldl (fun n c => 10 * n + (c.toNat - 48)) 0

/-- Sign and remaining body of a Python float literal. -/
def stripSign (cs : List Char) : ℚ × List Char :=
  if cs.headD ' ' = '-' then (-1, cs.tail)
  else if cs.headD ' ' = '+' then (1, cs.tail)
  else (1, cs)

/-- Value of an unsigned float-literal body: digits, optionally followed by
a dot and further digits, with at least one digit overall.  `ip` is the
integer part, `fp` the fractional part. -/
def pyFloatBody (sign : ℚ) (body : List Char) : Option ℚ :=
  if (body.dropWhile Char.isDigit).isEmpty then
    if (body.takeWhile Char.isDigit).isEmpty then none
    else some (sign * (digitsToNat (body.takeWhile Char.isDigit) : ℚ))
  else if (body.dropWhile Char.isDigit).headD ' ' = '.' then
    if ((body.dropWhile Char.isDigit).tail.dropWhile Char.isDigit).isEmpty
        && !((body.takeWhile Char.isDigit).isEmpty
             && ((body.dropWhile Char.isDigit).tail.takeWhile Char.isDigit).isEmpty) then
      some (sign * ((digitsToNat (body.takeWhile Char.isDigit) : ℚ)
        + (digitsToNat ((body.dropWhile Char.isDigit).tail.takeWhile Char.isDigit) : ℚ)
          / (10 : ℚ) ^ ((body.dropWhile Char.isDigit).tail.takeWhile Char.isDigit).length))
    else none
  else none

/-- The Python builtin `float(s)` (source lines 152-155), modelled on the
fragment of its input grammar the parser can produce and the replies can
contain: an optional sign, then digits with an optional decimal point.
(Exponents, `inf`/`nan`, underscores and surrounding whitespace are outside
the token language of the extraction and are not modelled.)  Returns `none`
where Python raises `ValueError`. -/
def pyFloat (cs : List Char) : Option ℚ :=
  pyFloatBody (stripSign cs).1 (stripSign cs).2

/-! ## The nutrition record and the reply parser -/

/-- The parsed nutritional quadruple: the dictionary built at source lines
151-156, with keys `proteins`, `carbs`, `fat`, `calories`. -/
structure NutritionEstimate where
  proteins : ℚ
  carbs : ℚ
  fat : ℚ
  calories : ℚ
deriving DecidableEq, Repr

/-- Model of `CalorieTracker.parse_nutritional_data` (source lines
135-158): extract
all numeric substrings; raise `ValueError` ("Expected 4 numbers…") if fewer
than four; otherwise convert the first four with `float`, raising
`ValueError` ("Failed to parse nutritional data…") if any conversion
fails. -/
def parse_nutritional_data (llm_response : List Char) : Except Err NutritionEstimate :=
  if (findNumbers llm_response).length < 4 then
    .error (.tooFewNumbers (findNumbers llm_response).length)
  else
    match pyFloat ((findNumbers llm_response).getD 0 []),
          pyFloat ((findNumbers llm_response).getD 1 []),
          pyFloat ((findNumbers llm_response).getD 2 []),
          pyFloat ((findNumbers llm_response).getD 3 []) with
    | some p, some c, some f, some k => .ok ⟨p, c, f, k⟩
    | _, _, _, _ => .error .floatConvFailed

/-! ## Structure of extracted tokens -/

/-- The shape of every substring matched by `\d+\.?\d*`: a non-empty run
of digits, optionally followed by a dot and a (possibly empty) run of
digits. -/
def TokenShape (t : List Char) : Prop :=
  ∃ ip fp : List Char,
    ip ≠ [] ∧ (∀ x ∈ ip, x.isDigit = true) ∧ (∀ x ∈ fp, x.isDigit = true) ∧
    (t = ip ∨ t = ip ++ '.' :: fp)

lemma tokenShape_numToken (c : Char) (cs : List Char) (h : c.isDigit = true) :
    TokenShape (numToken (c :: cs)) := by
  have hip : (c :: cs).takeWhile Char.isDigit = c :: cs.takeWhile Char.isDigit := by
    rw [List.takeWhile_cons, if_pos h]
  have hne : (c :: cs).takeWhile Char.isDigit ≠ [] := by rw [hip]; simp
  have hmem : ∀ x ∈ (c :: cs).takeWhile Char.isDigit, x.isDigit = true :=
    fun x hx => List.mem_takeWhile_imp hx
  unfold numToken
  split
  · rename_i r2 heq
    exact ⟨(c :: cs).takeWhile Char.isDigit, r2.takeWhile Char.isDigit, hne, hmem,
      fun x hx => List.mem_takeWhile_imp hx, Or.inr rfl⟩
  · exact ⟨(c :: cs).takeWhile Char.isDigit, [], hne, hmem, by simp, Or.inl rfl⟩

lemma tokenShape_of_mem_aux :
    ∀ (fuel : Nat) (l t : List Char), t ∈ findNumbersAux fuel l → TokenShape t := by
  intro fuel
  induction fuel with
  | zero => intro l t ht; simp [findNumbersAux] at ht
  | succ f ih =>
    intro l t ht
    cases l with
    | nil => simp [findNumbersAux] at ht
    | cons c cs =>
      simp only [findNumbersAux] at ht
      by_cases hd : c.isDigit = true
      · rw [if_pos hd] at ht
        rcases List.mem_cons.mp ht with h1 | h1
        · subst h1; exact tokenShape_numToken c cs hd
        · exact ih _ _ h1
      · rw [if_neg hd] at ht
        exact ih _ _ ht

/-- Every token returned by the extraction has the token shape. -/
lemma tokenShape_of_mem (s t : List Char) (h : t ∈ findNumbers s) : TokenShape t :=
  tokenShape_of_mem_aux s.length s t h

/-! ## `float` succeeds on every extracted token, with a non-negative value -/

lemma stripSign_of_digit (d : Char) (ds : List Char) (h : d.isDigit = true) :
    stripSign (d :: ds) = (1, d :: ds) := by
  have h1 : d ≠ '-' := by rintro rfl; exact absurd h (by decide)
  have h2 : d ≠ '+' := by rintro rfl; exact absurd h (by decide)
  unfold stripSign
  simp only [List.headD_cons, List.tail_cons]
  rw [if_neg h1, if_neg h2]

lemma takeWhile_eq_self_of_all {p : Char → Bool} {l : List Char}
    (h : ∀ x ∈ l, p x = true) : l.takeWhile p = l :=
  List.takeWhile_eq_self_iff.mpr h

lemma dropWhile_eq_nil_of_all {p : Char → Bool} {l : List Char}
    (h : ∀ x ∈ l, p x = true) : l.dropWhile p = [] :=
  List.dropWhile_eq_nil_iff.mpr h

lemma takeWhile_append_of_all {p : Char → Bool} {l : List Char} {c : Char}
    (r : List Char) (hl : ∀ x ∈ l, p x = true) (hc : p c = false) :
    (l ++ c :: r).takeWhile p = l ∧ (l ++ c :: r).dropWhile p = c :: r := by
  induction l with
  | nil =>
    constructor
    · rw [List.nil_append, List.takeWhile_cons, hc]; simp
    · rw [List.nil_append, List.dropWhile_cons, hc]; simp
  | cons a l ih =>
    have ha : p a = true := hl a (by simp)
    have ih2 := ih (fun x hx => hl x (by simp [hx]))
    constructor
    · rw [List.cons_append, List.takeWhile_cons, ha, if_pos rfl, ih2.1]
    · rw [List.cons_append, List.dropWhile_cons, ha, if_pos rfl, ih2.2]

lemma pyFloat_tokenShape (t : List Char) (h : TokenShape t) :
    ∃ q, pyFloat t = some q ∧ 0 ≤ q := by
  obtain ⟨ip, fp, hne, hipd, hfpd, hcase⟩ := h
  obtain ⟨d, ds, rfl⟩ : ∃ d ds, ip = d :: ds := by
    cases ip with
    | nil => exact absurd rfl hne
    | cons d ds => exact ⟨d, ds, rfl⟩
  have hd : d.isDigit = true := hipd d (by simp)
  rcases hcase with rfl | rfl
  · refine ⟨1 * (digitsToNat (d :: ds) : ℚ), ?_, by positivity⟩
    unfold pyFloat
    rw [stripSign_of_digit d ds hd]
    unfold pyFloatBody
    rw [takeWhile_eq_self_of_all hipd, dropWhile_eq_nil_of_all hipd]
    simp
  · refine ⟨1 * ((digitsToNat (d :: ds) : ℚ) +
      (digitsToNat fp : ℚ) / (10 : ℚ) ^ fp.length), ?_, by positivity⟩
    have hdot : Char.isDigit '.' = false := by decide
    have happ := takeWhile_append_of_all (p := Char.isDigit) fp hipd hdot
    have hd2 : d.isDigit = true := hd
    unfold pyFloat
    rw [show (d :: ds) ++ '.' :: fp = d :: (ds ++ '.' :: fp) from rfl,
      stripSign_of_digit d (ds ++ '.' :: fp) hd]
    unfold pyFloatBody
    rw [show d :: (ds ++ '.' :: fp) = (d :: ds) ++ '.' :: fp from rfl, happ.1, happ.2]
    simp only [List.tail_cons, List.headD_cons]
    rw [takeWhile_eq_self_of_all hfpd, dropWhile_eq_nil_of_all hfpd]
    simp

lemma getD_mem_of_lt {l : List (List Char)} {i : Nat} (h : i < l.length) :
    l.getD i [] ∈ l := by
  rw [List.getD_eq_getElem?_getD, List.getElem?_eq_getElem h]
  exact List.getElem_mem h

/-- Core parser lemma: whenever at least four tokens are extracted, all four
`float` conversions succeed, the values are non-negative, and the parser
returns exactly the quadruple of the first four token values. -/
lemma parse_first_four (s : List Char) (h : 4 ≤ (findNumbers s).length) :
    ∃ p c f k,
      pyFloat ((findNumbers s).getD 0 []) = some p ∧ 0 ≤ p ∧
      pyFloat ((findNumbers s).getD 1 []) = some c ∧ 0 ≤ c ∧
      pyFloat ((findNumbers s).getD 2 []) = some f ∧ 0 ≤ f ∧
      pyFloat ((findNumbers s).getD 3 []) = some k ∧ 0 ≤ k ∧
      parse_nutritional_data s = .ok ⟨p, c, f, k⟩ := by
  obtain ⟨p, hp, hp0⟩ :=
    pyFloat_tokenShape _ (tokenShape_of_mem s _ (getD_mem_of_lt (i := 0) (by omega)))
  obtain ⟨c, hc, hc0⟩ :=
    pyFloat_tokenShape _ (tokenShape_of_mem s _ (getD_mem_of_lt (i := 1) (by omega)))
  obtain ⟨f, hf, hf0⟩ :=
    pyFloat_tokenShape _ (tokenShape_of_mem s _ (getD_mem_of_lt (i := 2) (by omega)))
  obtain ⟨k, hk, hk0⟩ :=
    pyFloat_tokenShape _ (tokenShape_of_mem s _ (getD_mem_of_lt (i := 3) (by omega)))
  refine ⟨p, c, f, k, hp, hp0, hc, hc0, hf, hf0, hk, hk0, ?_⟩
  unfold parse_nutritional_data
  rw [if_neg (by omega), hp, hc, hf, hk]

lemma getD_of_take4 (l : List (List Char)) (i : Nat) (hi : i < 4) :
    (l.take 4).getD i [] = l.getD i [] := by
  rw [List.getD_eq_getElem?_getD, List.getD_eq_getElem?_getD, List.getElem?_take, if_pos hi]

/-- The parser's result depends only on the first four extracted tokens. -/
lemma parse_eq_of_take4_eq (s s2 : List Char) (h : 4 ≤ (findNumbers s).length)
    (heq : (findNumbers s2).take 4 = (findNumbers s).take 4) :
    parse_nutritional_data s2 = parse_nutritional_data s := by
  have hlen : 4 ≤ (findNumbers s2).length := by
    have := congrArg List.length heq
    rw [List.length_take, List.length_take] at this
    omega
  unfold parse_nutritional_data
  rw [if_neg (by omega), if_neg (by omega),
    ← getD_of_take4 (findNumbers s2) 0 (by omega), ← getD_of_take4 (findNumbers s2) 1 (by omega),
    ← getD_of_take4 (findNumbers s2) 2 (by omega), ← getD_of_take4 (findNumbers s2) 3 (by omega),
    heq,
    getD_of_take4 (findNumbers s) 0 (by omega), getD_of_take4 (findNumbers s) 1 (by omega),
    getD_of_take4 (findNumbers s) 2 (by omega), getD_of_take4 (findNumbers s) 3 (by omega)]

/-- C1: for every estimator reply with at least four numeric substrings,
`parse_nutritional_data` returns the `NutritionEstimate` whose `proteins`,
`carbs`, `fat` and `calories` are the numeric values of the first, second,
third and fourth matched substrings respectively, and any reply with the
same first four matches is parsed identically, so all further numeric
substrings have no effect on the result. -/
theorem parse_takes_first_four_in_order (s : List Char)
    (h : 4 ≤ (findNumbers s).length) :
    ∃ p c f k : ℚ,
      pyFloat ((findNumbers s).getD 0 []) = some p ∧
      pyFloat ((findNumbers s).getD 1 []) = some c ∧
      pyFloat ((findNumbers s).getD 2 []) = some f ∧
      pyFloat ((findNumbers s).getD 3 []) = some k ∧
      parse_nutritional_data s = .ok ⟨p, c, f, k⟩ ∧
      ∀ s2, (findNumbers s2).take 4 = (findNumbers s).take 4 →
        parse_nutritional_data s2 = parse_nutritional_data s := by
  obtain ⟨p, c, f, k, hp, _, hc, _, hf, _, hk, _, hok⟩ := parse_first_four s h
  exact ⟨p, c, f, k, hp, hc, hf, hk, hok, fun s2 heq => parse_eq_of_take4_eq s s2 h heq⟩

/-- Witness for C1 at the spec's scenario reply. -/
theorem parse_takes_first_four_in_order_witness :
    ∃ p c f k : ℚ,
      pyFloat ((findNumbers (String.toList
        "Protein: 12.5g, Carbs: 40g, Fat: 3g, Calories: 310")).getD 0 []) = some p ∧
      pyFloat ((findNumbers (String.toList
        "Protein: 12.5g, Carbs: 40g, Fat: 3g, Calories: 310")).getD 1 []) = some c ∧
      pyFloat ((findNumbers (String.toList
        "Protein: 12.5g, Carbs: 40g, Fat: 3g, Calories: 310")).getD 2 []) = some f ∧
      pyFloat ((findNumbers (String.toList
        "Protein: 12.5g, Carbs: 40g, Fat: 3g, Calories: 310")).getD 3 []) = some k ∧
      parse_nutritional_data (String.toList
        "Protein: 12.5g, Carbs: 40g, Fat: 3g, Calories: 310") = .ok ⟨p, c, f, k⟩ ∧
      ∀ s2, (findNumbers s2).take 4 = (findNumbers (String.toList
          "Protein: 12.5g, Carbs: 40g, Fat: 3g, Calories: 310")).take 4 →
        parse_nutritional_data s2 = parse_nutritional_data (String.toList
          "Protein: 12.5g, Carbs: 40g, Fat: 3g, Calories: 310") :=
  parse_takes_first_four_in_order _ (by decide)

/-- C4: the parser fails exactly when fewer than four numeric substrings
are extracted, and in that case the failure is the "Expected 4 numbers"
`ValueError` carrying the number of matches found. -/
theorem parse_error_iff_too_few (s : List Char) :
    ((∃ er, parse_nutritional_data s = .error er) ↔ (findNumbers s).length < 4) ∧
    ((findNumbers s).length < 4 →
      parse_nutritional_data s = .error (.tooFewNumbers (findNumbers s).length)) := by
  have hfew : (findNumbers s).length < 4 →
      parse_nutritional_data s = .error (.tooFewNumbers (findNumbers s).length) := by
    intro hlt
    unfold parse_nutritional_data
    rw [if_pos hlt]
  refine ⟨⟨?_, fun hlt => ⟨_, hfew hlt⟩⟩, hfew⟩
  rintro ⟨er, her⟩
  by_contra hge
  obtain ⟨p, c, f, k, _, _, _, _, _, _, _, _, hok⟩ := parse_first_four s (by omega)
  rw [her] at hok
  exact Except.noConfusion hok

/-- Witness for C4: a reply with only two numbers fails with the
too-few-numbers error. -/
theorem parse_error_iff_too_few_witness :
    parse_nutritional_data (String.toList "1 2") = .error (.tooFewNumbers 2) :=
  (parse_error_iff_too_few (String.toList "1 2")).2 (by decide)

/-- C9: every `NutritionEstimate` produced by the parser has all four
fields non-negative, for every reply text — the extraction pattern matches
no minus sign, so a leading `-` in the reply is simply not part of any
token. -/
theorem parsed_estimate_nonneg (s : List Char) (e : NutritionEstimate)
    (h : parse_nutritional_data s = .ok e) :
    0 ≤ e.proteins ∧ 0 ≤ e.carbs ∧ 0 ≤ e.fat ∧ 0 ≤ e.calories := by
  by_cases hlen : (findNumbers s).length < 4
  · rw [(parse_error_iff_too_few s).2 hlen] at h
    exact Except.noConfusion h
  · obtain ⟨p, c, f, k, _, hp0, _, hc0, _, hf0, _, hk0, hok⟩ :=
      parse_first_four s (by omega)
    rw [h] at hok
    injection hok with hok
    subst hok
    exact ⟨hp0, hc0, hf0, hk0⟩

/-- Witness for C9: a reply containing a minus sign still parses to
non-negative fields. -/
theorem parsed_estimate_nonneg_witness :
    ∃ e, parse_nutritional_data (String.toList "-1 -2 -3 -4") = .ok e ∧
      (0 ≤ e.proteins ∧ 0 ≤ e.carbs ∧ 0 ≤ e.fat ∧ 0 ≤ e.calories) := by
  obtain ⟨p, c, f, k, _, _, _, _, _, _, _, _, hok⟩ :=
    parse_first_four (String.toList "-1 -2 -3 -4") (by decide)
  exact ⟨_, hok, parsed_estimate_nonneg _ _ hok⟩

/-- C10: whenever at least four numeric substrings are extracted, the
`float` conversion of the first four matches always succeeds, so the
"Failed to parse nutritional data" branch of `parse_nutritional_data` is
unreachable and the parser returns a `NutritionEstimate`. -/
theorem float_conversion_never_fails (s : List Char)
    (h : 4 ≤ (findNumbers s).length) :
    ∃ e, parse_nutritional_data s = .ok e := by
  obtain ⟨p, c, f, k, _, _, _, _, _, _, _, _, hok⟩ := parse_first_four s h
  exact ⟨⟨p, c, f, k⟩, hok⟩

/-- Witness for C10, including tokens that end in a bare dot. -/
theorem float_conversion_never_fails_witness :
    ∃ e, parse_nutritional_data (String.toList "10.5 20. 30.25 400") = .ok e :=
  float_conversion_never_fails _ (by decide)

/-- C8 counterexample: the extraction applied to the reply ".5" yields the
single token "5" with numeric value 5, not the value 0.5 the claim
predicts — the pattern's integer part is mandatory, so the leading dot is
skipped. -/
theorem dot_five_not_half :
    findNumbers (String.toList ".5") = [['5']] ∧
    pyFloat ['5'] = some 5 ∧ (5 : ℚ) ≠ 1 / 2 := by
  have hd5 : digitsToNat ['5'] = 5 := rfl
  refine ⟨by decide, ?_, by norm_num⟩
  have h1 : pyFloat ['5'] = some (1 * (digitsToNat ['5'] : ℚ)) := rfl
  rw [h1, hd5]
  norm_num

/-- C8 (amended): the extraction scans the reply left to right and every
collected substring matches a decimal-number pattern whose integer part is
mandatory (one or more digits) and whose fractional part is optional; in
particular the reply ".5" yields the token "5" (numeric value 5), not
0.5. -/
theorem extraction_requires_integer_part :
    (∀ s t : List Char, t ∈ findNumbers s → TokenShape t) ∧
    findNumbers (String.toList ".5") = [['5']] :=
  ⟨fun s t ht => tokenShape_of_mem s t ht, by decide⟩

/-- Witness for the amended C8: the token extracted from ".5" has the
mandatory-integer-part shape. -/
theorem extraction_requires_integer_part_witness : TokenShape ['5'] :=
  extraction_requires_integer_part.1 (String.toList ".5") ['5'] (by decide)

/-! ## The daily ledger store

The store is one JSON file per date under `tracker/`, named
`YY-MM-DD.json`.  We model the file system as a map from date strings to
file contents, and JSON documents as an explicit value type.  A JSON
object is an association list whose keys are unique (Python's `json.load`
yields a `dict`, which keeps one binding per key). -/

/-- A JSON value, as produced by Python's `json.load`. -/
inductive JValue where
  | null
  | bool (b : Bool)
  | num (q : ℚ)
  | str (s : String)
  | arr (elems : List JValue)
  | obj (fields : List (String × JValue))

/-- Content of one date's tracker file: missing, present but not
syntactically valid JSON (where `json.load` raises `JSONDecodeError`), or a
parsed JSON document. -/
inductive FileContent where
  | absent
  | invalid
  | json (v : JValue)

/-- The file system restricted to the `tracker/` directory: one
`FileContent` per date string. -/
def Store : Type := String → FileContent

/-- The state before any tracker file exists. -/
def emptyStore : Store := fun _ => .absent

/-- Key lookup in a parsed JSON object (`dict.get` / `dict[...]`). -/
def jLookup (fields : List (String × JValue)) (k : String) : Option JValue :=
  (fields.find? (fun p => p.1 == k)).map Prod.snd

/-- Subscripting `d[k]` on a JSON value: `KeyError` on a missing key of an
object,
`TypeError` when the value is not an object at all. -/
def pyGetItem (v : JValue) (k : String) : Except Err JValue :=
  match v with
  | .obj fields =>
    match jLookup fields k with
    | some x => .ok x
    | none => .error .keyError
  | _ => .error .typeError

/-- A value usable as a summand of Python's `sum`: numbers, and booleans
(which are `int` subclasses: `True` counts as 1). -/
def asNumber (v : JValue) : Except Err ℚ :=
  match v with
  | .num q => .ok q
  | .bool b => .ok (if b then 1 else 0)
  | _ => .error .typeError

/-- One term `e["nutrition"]["calories"]` of the totals computed at source
lines 189 and 219. -/
def entryCalories (e : JValue) : Except Err ℚ :=
  match pyGetItem e "nutrition" with
  | .error er => .error er
  | .ok n =>
    match pyGetItem n "calories" with
    | .error er => .error er
    | .ok c => asNumber c

/-- The sum `sum(e["nutrition"]["calories"] for e in entries)`: left to
right, the
first failing entry raises. -/
def sumCalories : List JValue → Except Err ℚ
  | [] => .ok 0
  | e :: rest =>
    match entryCalories e with
    | .error er => .error er
    | .ok c =>
      match sumCalories rest with
      | .error er => .error er
      | .ok s => .ok (c + s)

/-- Outcome of `CalorieTracker.load_daily_data`: the value returned, the
value returned after the corruption warning was printed, or an uncaught
exception. -/
inductive LoadResult where
  | ok (entries : JValue)
  | warned (entries : JValue)
  | raised (e : Err)

/-- Model of `CalorieTracker.load_daily_data` (source lines 61-79) applied
to the
content of the date's file: returns `[]` when the file does not exist;
returns `data.get('entries', [])` when the file parses as a JSON object;
returns `[]` with a warning when `json.load` raises `JSONDecodeError` (the
`except` clause catches only `JSONDecodeError` and `KeyError`); but when
the file holds valid JSON that is not an object, `data.get` raises an
uncaught `AttributeError`. -/
def load_daily_data : FileContent → LoadResult
  | .absent => .ok (.arr [])
  | .invalid => .warned (.arr [])
  | .json v =>
    match v with
    | .obj fields => .ok ((jLookup fields "entries").getD (.arr []))
    | _ => .raised .attrError

/-- The JSON entry dictionary built at source lines 179-183. -/
def entryToJson (ts food : String) (n : NutritionEstimate) : JValue :=
  .obj [("timestamp", .str ts), ("food", .str food),
        ("nutrition", .obj [("proteins", .num n.proteins), ("carbs", .num n.carbs),
                            ("fat", .num n.fat), ("calories", .num n.calories)])]

/-- The complete data structure written at source lines 192-196. -/
def ledgerJson (entries : List JValue) (total : ℚ) (date_str : String) : JValue :=
  .obj [("entries", .arr entries), ("total_calories", .num total), ("date", .str date_str)]

/-- Model of `CalorieTracker.save_to_file` (source lines 160-204): load
the existing
entries for the date, append the new entry, recompute the total over the
full list, and overwrite the date's file with
`{entries, total_calories, date}`.  The date and timestamp, taken in the
source from `datetime.now()`, are explicit arguments.  A non-list
`entries` value makes `existing_entries.append` raise `AttributeError`;
the uncaught exceptions of loading and summing propagate. -/
def save_to_file (store : Store) (date_str ts food : String) (n : NutritionEstimate) :
    Except Err Store :=
  match load_daily_data (store date_str) with
  | .raised e => .error e
  | .ok ev | .warned ev =>
    match ev with
    | .arr existing =>
      match sumCalories (existing ++ [entryToJson ts food n]) with
      | .error e => .error e
      | .ok total =>
        .ok (fun d => if d = date_str then
              .json (ledgerJson (existing ++ [entryToJson ts food n]) total date_str)
            else store d)
    | _ => .error .attrError

/-- Model of `CalorieTracker.calculate_remaining_calories` (source lines
206-222):
load today's entries, sum their calories, and subtract from the daily
limit.  Iterating a non-list `entries` value is modelled as the
`TypeError` Python raises on the subscripts inside the generator. -/
def calculate_remaining_calories (store : Store) (date_str : String) (daily_limit : ℚ) :
    Except Err (ℚ × ℚ) :=
  match load_daily_data (store date_str) with
  | .raised e => .error e
  | .ok ev | .warned ev =>
    match ev with
    | .arr entries =>
      match sumCalories entries with
      | .error e => .error e
      | .ok consumed => .ok (consumed, daily_limit - consumed)
    | _ => .error .typeError

/-- The `daily_limit` default of `CalorieTracker.__init__` (source line
28). -/
def default_daily_limit : ℚ := 3000

/-- The three presentation tiers of `display_daily_summary` (source lines
258-263). -/
inductive Tier where
  | overLimit
  | nearLimit
  | onTrack
deriving DecidableEq, Repr

/-- The tier chosen by `display_daily_summary` from the remaining
calories: `remaining < 0` warns that the limit is exceeded, otherwise
`remaining < 200` warns that the limit is near, otherwise the on-track
message is printed. -/
def summaryTier (remaining : ℚ) : Tier :=
  if remaining < 0 then .overLimit
  else if remaining < 200 then .nearLimit
  else .onTrack

/-! ## The per-item processing loop of `run` -/

/-- The LLM service as an oracle: what one `query_llm` call experiences —
a network/HTTP failure, or a reply text. -/
inductive LLMOutcome where
  | netFail
  | reply (text : List Char)

/-- One food item of a run, with its oracle outcome and the timestamp its
entry would carry. -/
structure RunItem where
  food : String
  ts : String
  outcome : LLMOutcome

/-- Model of `CalorieTracker.query_llm` (source lines 105-133): a request
failure
raises; otherwise the reply is parsed by `parse_nutritional_data`. -/
def query_llm : LLMOutcome → Except Err NutritionEstimate
  | .netFail => .error .requestFailed
  | .reply t => parse_nutritional_data t

/-- The `for` loop of `CalorieTracker.run` (source lines 314-325), which
sits inside the single `try` of `run`: each item is estimated and saved in
turn; the first exception propagates to the top-level `except`, which
prints the error and ends the run.  Returns the final store and the error
reported at top level, if any. -/
def runLoop (date_str : String) : Store → List RunItem → Store × Option Err
  | st, [] => (st, none)
  | st, it :: rest =>
    match query_llm it.outcome with
    | .error e => (st, some e)
    | .ok n =>
      match save_to_file st date_str it.ts it.food n with
      | .error e => (st, some e)
      | .ok st2 => runLoop date_str st2 rest

/-- The entry data appended in one successful `save_to_file` call. -/
structure EntryData where
  ts : String
  food : String
  nutrition : NutritionEstimate

/-- JSON encoding of one appended entry. -/
def EntryData.toJson (e : EntryData) : JValue := entryToJson e.ts e.food e.nutrition

/-- N successive `save_to_file` calls for one date (the append operation of
the spec, iterated). -/
def appendMany (date_str : String) : Store → List EntryData → Except Err Store
  | st, [] => .ok st
  | st, e :: rest =>
    match save_to_file st date_str e.ts e.food e.nutrition with
    | .error er => .error er
    | .ok st2 => appendMany date_str st2 rest

/-! ## Ledger lemmas -/

lemma entryCalories_toJson (ts food : String) (n : NutritionEstimate) :
    entryCalories (entryToJson ts food n) = .ok n.calories := rfl

lemma sumCalories_encoded (l : List EntryData) :
    sumCalories (l.map EntryData.toJson) =
      .ok ((l.map fun e => e.nutrition.calories).sum) := by
  induction l with
  | nil => simp [sumCalories]
  | cons e rest ih =>
    simp only [List.map_cons, sumCalories, EntryData.toJson, entryCalories_toJson, ih,
      List.sum_cons]

lemma load_ledgerJson (es : List JValue) (t : ℚ) (d : String) :
    load_daily_data (.json (ledgerJson es t d)) = .ok (.arr es) := rfl

/-- Behavior of `save_to_file` when loading yields a proper entry list and
the new
total sums successfully: the date's file is overwritten with the extended
record and all other files are untouched. -/
lemma save_to_file_of_loaded (store : Store) (d ts food : String)
    (n : NutritionEstimate) (existing : List JValue) (total : ℚ)
    (h : load_daily_data (store d) = .ok (.arr existing) ∨
         load_daily_data (store d) = .warned (.arr existing))
    (hs : sumCalories (existing ++ [entryToJson ts food n]) = .ok total) :
    save_to_file store d ts food n =
      .ok (fun dd => if dd = d then
        .json (ledgerJson (existing ++ [entryToJson ts food n]) total d)
      else store dd) := by
  unfold save_to_file
  rcases h with h | h <;> simp only [h, hs]

lemma appendMany_ok (d : String) :
    ∀ (items : List EntryData) (st : Store) (prior : List EntryData),
      load_daily_data (st d) = .ok (.arr (prior.map EntryData.toJson)) →
      ∃ st2, appendMany d st items = .ok st2 ∧
        load_daily_data (st2 d) = .ok (.arr ((prior ++ items).map EntryData.toJson)) := by
  intro items
  induction items with
  | nil =>
    intro st prior h
    exact ⟨st, rfl, by simpa using h⟩
  | cons e rest ih =>
    intro st prior h
    have hmap : prior.map EntryData.toJson ++ [entryToJson e.ts e.food e.nutrition] =
        (prior ++ [e]).map EntryData.toJson := by
      simp [EntryData.toJson]
    have hsum : sumCalories (prior.map EntryData.toJson ++
        [entryToJson e.ts e.food e.nutrition]) =
        .ok (((prior ++ [e]).map fun x => x.nutrition.calories).sum) := by
      rw [hmap]; exact sumCalories_encoded _
    have hsave := save_to_file_of_loaded st d e.ts e.food e.nutrition
      (prior.map EntryData.toJson) _ (Or.inl h) hsum
    rw [hmap] at hsave
    have hload2 : load_daily_data
        ((fun dd => if dd = d then
          FileContent.json (ledgerJson ((prior ++ [e]).map EntryData.toJson)
            (((prior ++ [e]).map fun x => x.nutrition.calories).sum) d)
        else st dd) d) = .ok (.arr ((prior ++ [e]).map EntryData.toJson)) := by
      simp [load_ledgerJson]
    obtain ⟨st2, h1, h2⟩ := ih
      (fun dd => if dd = d then
        FileContent.json (ledgerJson ((prior ++ [e]).map EntryData.toJson)
          (((prior ++ [e]).map fun x => x.nutrition.calories).sum) d)
      else st dd) (prior ++ [e]) hload2
    refine ⟨st2, ?_, by simpa using h2⟩
    simp only [appendMany, hsave]
    exact h1

/-- C3: starting from an empty ledger, after N successful appends for a
date, `load` returns exactly the N encoded entries in append order (so the
last loaded element is the encoding of the most recently appended entry,
with its timestamp, description and nutrition); moreover from the empty
ledger every such sequence of appends does succeed. -/
theorem append_load_roundtrip (d : String) (items : List EntryData) :
    ∃ st2, appendMany d emptyStore items = .ok st2 ∧
      load_daily_data (st2 d) = .ok (.arr (items.map EntryData.toJson)) ∧
      (items.map EntryData.toJson).length = items.length ∧
      (items.map EntryData.toJson).getLast? = Option.map EntryData.toJson items.getLast? := by
  obtain ⟨st2, h1, h2⟩ := appendMany_ok d items emptyStore [] rfl
  exact ⟨st2, h1, by simpa using h2, by simp, List.getLast?_map _ _⟩

/-- C2: every record persisted by `save_to_file` stores a `total_calories`
field equal to `sumCalories` of the full stored entry list — recomputed on
this save — for every prior ledger state and every appended entry; files
of other dates are untouched. -/
theorem saved_total_is_sum (store : Store) (d ts food : String)
    (n : NutritionEstimate) (store2 : Store)
    (h : save_to_file store d ts food n = .ok store2) :
    (∃ entries total, store2 d = .json (ledgerJson entries total d) ∧
      sumCalories entries = .ok total) ∧
    ∀ d2, d2 ≠ d → store2 d2 = store d2 := by
  unfold save_to_file at h
  cases hl : load_daily_data (store d) with
  | raised e => rw [hl] at h; simp at h
  | ok ev =>
    rw [hl] at h
    cases ev with
    | arr existing =>
      simp only [] at h
      cases hs : sumCalories (existing ++ [entryToJson ts food n]) with
      | error e => rw [hs] at h; simp at h
      | ok total =>
        rw [hs] at h
        simp only [Except.ok.injEq] at h
        subst h
        refine ⟨⟨existing ++ [entryToJson ts food n], total, by simp, hs⟩, ?_⟩
        intro d2 hd2
        simp [hd2]
    | null => simp at h
    | bool b => simp at h
    | num q => simp at h
    | str s => simp at h
    | obj fields => simp at h
  | warned ev =>
    rw [hl] at h
    cases ev with
    | arr existing =>
      simp only [] at h
      cases hs : sumCalories (existing ++ [entryToJson ts food n]) with
      | error e => rw [hs] at h; simp at h
      | ok total =>
        rw [hs] at h
        simp only [Except.ok.injEq] at h
        subst h
        refine ⟨⟨existing ++ [entryToJson ts food n], total, by simp, hs⟩, ?_⟩
        intro d2 hd2
        simp [hd2]
    | null => simp at h
    | bool b => simp at h
    | num q => simp at h
    | str s => simp at h
    | obj fields => simp at h

/-- Witness for C2: appending one entry to the empty ledger persists a
record whose total is the sum over its entry list. -/
theorem saved_total_is_sum_witness :
    ∃ store2, save_to_file emptyStore "25-01-01" "12:00" "200g ramen noodles"
        ⟨10, 20, 5, 300⟩ = .ok store2 ∧
      ((∃ entries total, store2 "25-01-01" = .json (ledgerJson entries total "25-01-01") ∧
        sumCalories entries = .ok total) ∧
       ∀ d2, d2 ≠ "25-01-01" → store2 d2 = emptyStore d2) := by
  obtain ⟨st2, h⟩ : ∃ st2, save_to_file emptyStore "25-01-01" "12:00"
      "200g ramen noodles" ⟨10, 20, 5, 300⟩ = .ok st2 := ⟨_, rfl⟩
  exact ⟨st2, h, saved_total_is_sum emptyStore _ _ _ _ _ h⟩

/-- C5 counterexample: a stored record that is valid JSON but not a JSON
object — here the JSON document `[]` — is malformed, yet `load_daily_data`
raises an uncaught `AttributeError` (`data.get` on a non-dict) instead of
returning an empty sequence with a warning. -/
theorem malformed_record_raises :
    load_daily_data (FileContent.json (JValue.arr [])) = .raised .attrError := rfl

/-- C5 (amended): `load` returns an empty sequence without raising both
when no record exists for the date (silently) and when the stored record
is not syntactically valid JSON (with a warning, not aborting the run);
a valid JSON object without an `entries` key also yields the empty
sequence, silently.  (A record that is valid JSON but not an object
instead raises an uncaught error.) -/
theorem load_missing_or_invalid_empty :
    load_daily_data .absent = .ok (.arr []) ∧
    load_daily_data .invalid = .warned (.arr []) ∧
    ∀ fields, jLookup fields "entries" = none →
      load_daily_data (.json (.obj fields)) = .ok (.arr []) := by
  refine ⟨rfl, rfl, fun fields h => ?_⟩
  unfold load_daily_data
  simp [h]

/-- Witness for the amended C5: a record that is an empty JSON object
loads as the empty sequence. -/
theorem load_missing_or_invalid_empty_witness :
    load_daily_data (.json (.obj [])) = .ok (.arr []) :=
  load_missing_or_invalid_empty.2.2 [] rfl

lemma summaryTier_spec (x : ℚ) :
    (summaryTier x = .overLimit ↔ x < 0) ∧
    (summaryTier x = .nearLimit ↔ 0 ≤ x ∧ x < 200) ∧
    (summaryTier x = .onTrack ↔ 200 ≤ x) := by
  unfold summaryTier
  split_ifs with h1 h2 <;> refine ⟨?_, ?_, ?_⟩ <;> simp_all
  linarith

/-- C6: whenever `calculate_remaining_calories` succeeds, `consumed` is
the calorie sum over the entries loaded for the date, `remaining` is the
daily limit minus `consumed` (possibly negative), the summary tier is
over-limit exactly when `remaining < 0`, near-limit exactly when
`0 ≤ remaining < 200`, on-track exactly when `200 ≤ remaining`, and the
default daily limit is 3000. -/
theorem summary_consumed_remaining (store : Store) (d : String) (limit c r : ℚ)
    (h : calculate_remaining_calories store d limit = .ok (c, r)) :
    (∃ entries, (load_daily_data (store d) = .ok (.arr entries) ∨
                 load_daily_data (store d) = .warned (.arr entries)) ∧
       sumCalories entries = .ok c) ∧
    r = limit - c ∧
    (summaryTier r = .overLimit ↔ r < 0) ∧
    (summaryTier r = .nearLimit ↔ 0 ≤ r ∧ r < 200) ∧
    (summaryTier r = .onTrack ↔ 200 ≤ r) ∧
    default_daily_limit = 3000 := by
  unfold calculate_remaining_calories at h
  cases hl : load_daily_data (store d) with
  | raised e => rw [hl] at h; simp at h
  | ok ev =>
    rw [hl] at h
    cases ev with
    | arr entries =>
      simp only [] at h
      cases hs : sumCalories entries with
      | error e => rw [hs] at h; simp at h
      | ok consumed =>
        rw [hs] at h
        simp only [Except.ok.injEq, Prod.mk.injEq] at h
        obtain ⟨rfl, rfl⟩ := h
        have htier := summaryTier_spec (limit - consumed)
        exact ⟨⟨entries, Or.inl rfl, hs⟩, rfl, htier.1, htier.2.1, htier.2.2, rfl⟩
    | null => simp at h
    | bool b => simp at h
    | num q => simp at h
    | str s => simp at h
    | obj fields => simp at h
  | warned ev =>
    rw [hl] at h
    cases ev with
    | arr entries =>
      simp only [] at h
      cases hs : sumCalories entries with
      | error e => rw [hs] at h; simp at h
      | ok consumed =>
        rw [hs] at h
        simp only [Except.ok.injEq, Prod.mk.injEq] at h
        obtain ⟨rfl, rfl⟩ := h
        have htier := summaryTier_spec (limit - consumed)
        exact ⟨⟨entries, Or.inr rfl, hs⟩, rfl, htier.1, htier.2.1, htier.2.2, rfl⟩
    | null => simp at h
    | bool b => simp at h
    | num q => simp at h
    | str s => simp at h
    | obj fields => simp at h

/-- Witness for C6 on the empty ledger with the default limit. -/
theorem summary_consumed_remaining_witness :
    (∃ entries, (load_daily_data (emptyStore "25-01-01") = .ok (.arr entries) ∨
                 load_daily_data (emptyStore "25-01-01") = .warned (.arr entries)) ∧
       sumCalories entries = .ok 0) ∧
    (3000 - 0 : ℚ) = 3000 - 0 ∧
    (summaryTier (3000 - 0) = .overLimit ↔ (3000 - 0 : ℚ) < 0) ∧
    (summaryTier (3000 - 0) = .nearLimit ↔ (0 : ℚ) ≤ 3000 - 0 ∧ (3000 - 0 : ℚ) < 200) ∧
    (summaryTier (3000 - 0) = .onTrack ↔ (200 : ℚ) ≤ 3000 - 0) ∧
    default_daily_limit = 3000 :=
  summary_consumed_remaining emptyStore "25-01-01" 3000 0 (3000 - 0) rfl

/-- C7 counterexample: in a run with two food items where estimation fails
on the first, the loop aborts with the top-level error: the second, valid
item is never recorded (the final store is still the empty store), whereas
processing that second item alone does write a ledger file for the date. -/
theorem failed_item_aborts_loop :
    runLoop "25-01-01" emptyStore
      [⟨"pizza", "12:00", .netFail⟩,
       ⟨"apple", "12:05", .reply (String.toList "1 2 3 4")⟩] =
      (emptyStore, some .requestFailed) ∧
    (runLoop "25-01-01" emptyStore
      [⟨"apple", "12:05", .reply (String.toList "1 2 3 4")⟩]).2 = none ∧
    ∃ v, (runLoop "25-01-01" emptyStore
      [⟨"apple", "12:05", .reply (String.toList "1 2 3 4")⟩]).1 "25-01-01" =
        FileContent.json v :=
  ⟨rfl, rfl, ⟨_, rfl⟩⟩

/-- C7 (amended): if estimation or parsing fails for an item, that item is
not recorded — the ledger state is completely unchanged — but the loop
does not continue: the exception propagates to the top-level handler, the
remaining items are not processed, and the run ends with the error
report. -/
theorem failed_item_not_recorded (st : Store) (d : String) (it : RunItem)
    (rest : List RunItem) (e : Err) (h : query_llm it.outcome = .error e) :
    runLoop d st (it :: rest) = (st, some e) := by
  unfold runLoop
  rw [h]

/-- Witness for the amended C7: a network failure on the only item leaves
the store untouched and reports the estimation error. -/
theorem failed_item_not_recorded_witness :
    runLoop "25-01-01" emptyStore [⟨"pizza", "12:00", .netFail⟩] =
      (emptyStore, some .requestFailed) :=
  failed_item_not_recorded emptyStore "25-01-01" ⟨"pizza", "12:00", .netFail⟩ []
    .requestFailed rfl

end CalorieTracker
